import Mathlib

/-!
Verification development for the HMS-Finance backend (`src/server/index.js` and
`src/api/index.js`): a shallow embedding of the connection-lifecycle and
request-gating policy of the Express/Mongoose server, together with the route
handlers it gates, and theorems about that embedding.

The repository's `src/server/index.js` contains two revisions of the server:

* a serverless variant (exported as the Express `app` and re-exported by
  `src/api/index.js` as the Vercel entry point), whose `connectDB` caches the
  connection in `cachedDb`, checks `mongoose.connection.readyState === 1` on
  every call, and seeds the database once per process lifetime guarded by
  `isSeeded`; and
* a standalone variant, which keeps a boolean `isDbConnected` flag updated by
  `mongoose.connection.on('disconnected'/'reconnected')` handlers and whose
  `connectDB` retries itself with `setTimeout(connectDB, 5000)` on failure.

Both variants are embedded below.  Effects of the JavaScript runtime that the
code observes but does not itself compute — whether `mongoose.connect`
succeeds, the value of `mongoose.connection.readyState` after a connect or a
`'disconnected'` event, and whether an individual seeding database operation
throws — are passed in as explicit parameters (`ConnectOutcome`, the
`disconnected`/`reconnected` events, `seedFail`).
-/

namespace HMSFinance

/-- Scalar JSON value, as stored in a field of a JavaScript object. -/
inductive JsonLit where
  | s (v : String)
  | b (v : Bool)
  | n (v : Int)
  | null
deriving Repr, DecidableEq

/-- A JavaScript object with scalar fields, as an association list. -/
abbrev Obj := List (String × JsonLit)

/-- A record of the `Auth` collection: `role`, `username`, `password`. -/
structure AuthRecord where
  role : String
  username : String
  password : String
deriving Repr, DecidableEq

/-- A record of the `Event` collection: an `id`, a soft-delete flag and an
embedded ordered list of transaction objects.  Other schema fields play no
role in the claims and are not modelled. -/
structure EventRec where
  id : String
  isDeleted : Bool
  transactions : List Obj
deriving Repr, DecidableEq

/-- A record of the `Request` collection: an `id`, an `isRead` flag and the
remaining caller-supplied fields. -/
structure RequestRec where
  id : String
  isRead : Bool
  data : Obj
deriving Repr, DecidableEq

/-- Process-wide state of the serverless variant: the module-level variables
`cachedDb` (the cached connection handle, opaque) and `isSeeded`, the Mongoose
connection state `mongoose.connection.readyState` (1 means connected), and the
contents of the three database collections. -/
structure ServerState where
  cachedDb : Option Unit
  readyState : Nat
  isSeeded : Bool
  auths : List AuthRecord
  events : List EventRec
  reqs : List RequestRec
deriving Repr, DecidableEq

/-- State at process start: no cached handle, not connected, not seeded; the
remote collections hold arbitrary prior contents, here taken empty for the
concrete scenarios. -/
def initState : ServerState :=
  { cachedDb := none, readyState := 0, isSeeded := false
    auths := [], events := [], reqs := [] }

/-- Environment outcome of one `mongoose.connect(MONGO_URI)` attempt: either
the connect resolves, or it rejects with some underlying cause. -/
inductive ConnectOutcome where
  | success
  | failure (cause : String)
deriving Repr, DecidableEq

/-- Result of a JavaScript async function call: resolved, or rejected with an
`Error` whose `message` is recorded. -/
inductive JsResult where
  | ok
  | error (message : String)
deriving Repr, DecidableEq

/-- The record `Auth.findOne (role: r)` resolves to: the first record of the
collection whose `role` equals `r`. -/
def findRole (auths : List AuthRecord) (r : String) : Option AuthRecord :=
  auths.find? (fun a => a.role == r)

/-- One role's step of `seedAuth`: `await Auth.findOne (role: r)` and, if no
record exists, `await Auth.create (role: r, username: u, password: p)`
(Mongoose `create` appends a new document). -/
def seedRoleStep (auths : List AuthRecord) (r u p : String) : List AuthRecord :=
  if (findRole auths r).isSome then auths
  else auths ++ [⟨r, u, p⟩]

/-- Default record seeded for role `admin`. -/
def adminDefault : AuthRecord := ⟨"admin", "Raiha Iman", "admin"⟩

/-- Default record seeded for role `user`. -/
def userDefault : AuthRecord := ⟨"user", "user", "password"⟩

/-- Default record seeded for role `assistant`. -/
def assistantDefault : AuthRecord := ⟨"assistant", "assi", "assi"⟩

/-- The body of `seedAuth`: seed the roles `admin`, `user`, `assistant` in
order.  `failAt` models the `try/catch` around the body: when
`failAt = some k`, the database operation for role `k` (0 = admin, 1 = user,
2 = assistant) throws before modifying the store, the exception is caught by
the surrounding `catch` (which only logs), and the later roles are not
seeded.  `seedAuthRun` is total: `seedAuth` never rejects. -/
def seedAuthRun (failAt : Option Nat) (auths : List AuthRecord) :
    List AuthRecord :=
  if failAt = some 0 then auths
  else
    let a1 := seedRoleStep auths "admin" "Raiha Iman" "admin"
    if failAt = some 1 then a1
    else
      let a2 := seedRoleStep a1 "user" "user" "password"
      if failAt = some 2 then a2
      else seedRoleStep a2 "assistant" "assi" "assi"

/-- `seedAuth` with no database operation throwing. -/
def seedAuth (auths : List AuthRecord) : List AuthRecord :=
  seedAuthRun none auths

/-- Result of one call to the serverless `connectDB`: the new process state,
the resolved/rejected outcome, the number of `mongoose.connect` network
attempts performed by this call, and the number of times this call ran
`seedAuth`. -/
structure ConnectDBResult where
  state : ServerState
  result : JsResult
  connectAttempts : Nat
  seedRuns : Nat
deriving Repr, DecidableEq

/-- The serverless `connectDB` (src/server/index.js lines 20-45).  If
`cachedDb` is set and `mongoose.connection.readyState === 1`, it returns at
once.  Otherwise it awaits `mongoose.connect` (whose outcome is the `outcome`
parameter; on success the driver sets `readyState` to 1, on failure it is not
connected), caches the connection, runs `seedAuth` once guarded by `isSeeded`,
and on connect failure clears `cachedDb` and rejects with
`Error('Database connection failed.')`. -/
def connectDB (outcome : ConnectOutcome) (seedFail : Option Nat)
    (s : ServerState) : ConnectDBResult :=
  if s.cachedDb.isSome && s.readyState == 1 then
    ⟨s, .ok, 0, 0⟩
  else
    match outcome with
    | .success =>
        let s1 := { s with cachedDb := some (), readyState := 1 }
        if s1.isSeeded then ⟨s1, .ok, 1, 0⟩
        else
          ⟨{ s1 with auths := seedAuthRun seedFail s1.auths, isSeeded := true },
            .ok, 1, 1⟩
    | .failure _ =>
        ⟨{ s with cachedDb := none, readyState := 0 },
          .error "Database connection failed.", 1, 0⟩

/-- Body of an HTTP JSON response sent by the server.  `obj` is a flat JSON
object; the remaining constructors are the document-shaped bodies produced by
`res.json` on query results or on the echoed request body. -/
inductive RespBody where
  | obj (fields : List (String × JsonLit))
  | eventsList (evs : List EventRec)
  | eventOpt (ev : Option EventRec)
  | eventRec (ev : EventRec)
  | echo (body : Obj)
  | requestsList (rs : List RequestRec)
  | requestRec (r : RequestRec)
deriving Repr, DecidableEq

/-- An HTTP response: status code and JSON body. -/
structure HttpResponse where
  status : Nat
  body : RespBody
deriving Repr, DecidableEq

/-- The middleware `checkDbConnection` (src/server/index.js lines 64-72):
await `connectDB()`; on resolution call `next()` (modelled by returning
`none`), on rejection reply 503 with the JSON object whose single field
`error` holds `error.message || 'Database disconnected'`. -/
def checkDbConnection (outcome : ConnectOutcome) (seedFail : Option Nat)
    (s : ServerState) : ServerState × Option HttpResponse :=
  let r := connectDB outcome seedFail s
  match r.result with
  | .ok => (r.state, none)
  | .error message =>
      (r.state,
        some ⟨503, .obj [("error",
          .s (if message == "" then "Database disconnected" else message))]⟩)

/-- The `/api/*` requests the server routes (one constructor per route of
src/server/index.js, bodies and path parameters as arguments; `unknown` is
any other `/api` path, handled by the trailing 404 handler). -/
inductive ApiReq where
  | health
  | login (username password : String)
  | credentials
  | authUpdate (role username : String) (password : Option String)
  | resetAdmin (confirmedUsername newPassword : String)
  | getEvents
  | getDeletedEvents
  | getEvent (id : String)
  | postEvent (body : EventRec)
  | softDeleteEvent (id : String)
  | restoreEvent (id : String)
  | deleteEvent (id : String)
  | postTransaction (id : String) (body : Obj)
  | putTransaction (id : String) (txId : String) (body : Obj)
  | deleteTransaction (id : String) (txId : String)
  | getRequests
  | postRequest (body : RequestRec)
  | putRequest (id : String) (body : Obj)
  | deleteRequest (id : String)
  | markRead
  | unknown
deriving Repr, DecidableEq

/-- `Event.findOne (id: i)`: the first event whose `id` field equals `i`. -/
def findEvent (events : List EventRec) (i : String) : Option EventRec :=
  events.find? (fun e => e.id == i)

/-- Persisting `event.save()` of the document found by `findEvent`: the first
event with matching `id` is replaced by the modified document. -/
def replaceFirstEvent (events : List EventRec) (i : String) (e' : EventRec) :
    List EventRec :=
  match events with
  | [] => []
  | e :: rest =>
      if e.id == i then e' :: rest else e :: replaceFirstEvent rest i e'

/-- `Event.findOneAndDelete (id: i)`: remove the first event with `id = i`. -/
def removeFirstEvent (events : List EventRec) (i : String) : List EventRec :=
  match events with
  | [] => []
  | e :: rest => if e.id == i then rest else e :: removeFirstEvent rest i

/-- `Event.findOneAndUpdate (id: i) u`: apply `u` to the first event with
`id = i`, leaving the rest unchanged. -/
def updateFirstEvent (events : List EventRec) (i : String)
    (u : EventRec → EventRec) : List EventRec :=
  match events with
  | [] => []
  | e :: rest =>
      if e.id == i then u e :: rest else e :: updateFirstEvent rest i u

/-- `Auth.findOneAndUpdate (role: r) u`: apply `u` to the first auth record
with role `r`. -/
def updateFirstAuth (auths : List AuthRecord) (r : String)
    (u : AuthRecord → AuthRecord) : List AuthRecord :=
  match auths with
  | [] => []
  | a :: rest =>
      if a.role == r then u a :: rest else a :: updateFirstAuth rest r u

/-- `Request.findOneAndUpdate (id: i) u`. -/
def updateFirstRequest (rs : List RequestRec) (i : String)
    (u : RequestRec → RequestRec) : List RequestRec :=
  match rs with
  | [] => []
  | r :: rest =>
      if r.id == i then u r :: rest else r :: updateFirstRequest rest i u

/-- `Request.findOneAndDelete (id: i)`. -/
def removeFirstRequest (rs : List RequestRec) (i : String) :
    List RequestRec :=
  match rs with
  | [] => []
  | r :: rest => if r.id == i then rest else r :: removeFirstRequest rest i

/-- JavaScript object spread merge: fields of `upd` override fields of `old`,
remaining fields of `old` are kept. -/
def mergeObj (old upd : Obj) : Obj :=
  old.filter (fun kv => !(upd.any (fun kv2 => kv2.1 == kv.1))) ++ upd

/-- Applying the Mongoose update document `body` to a `Request` record
(`findOneAndUpdate (id: i), req.body`): each supplied field is set. -/
def applyRequestUpdate (r : RequestRec) (body : Obj) : RequestRec :=
  { id := match body.lookup "id" with
          | some (.s v) => v
          | _ => r.id
    isRead := match body.lookup "isRead" with
              | some (.b v) => v
              | _ => r.isRead
    data := mergeObj r.data body }

/-- The JSON object whose single field `success` is `true`. -/
def successBody : RespBody := .obj [("success", .b true)]

/-- Result of running one route handler: the state after any persistence
calls, the response, and whether the handler executed a database write
(`create` / `save` / `findOneAndUpdate` / `findOneAndDelete` /
`updateMany`). -/
structure RouteResult where
  state : ServerState
  response : HttpResponse
  saved : Bool
deriving Repr, DecidableEq

/-- The route handlers of src/server/index.js (lines 79-299), dispatched on
the request.  Each handler is a direct transcription of the corresponding
Express handler operating on the collection lists; `res.json` without
`res.status` replies with status 200. -/
def routeHandler (req : ApiReq) (s : ServerState) : RouteResult :=
  match req with
  | .health =>
      ⟨s, ⟨200, .obj [("status", .s "ok"),
        ("db", .s (if s.readyState == 1 then "connected" else "disconnected"))]⟩,
        false⟩
  | .login username password =>
      match s.auths.find? (fun a => a.username == username && a.password == password) with
      | some a => ⟨s, ⟨200, .obj [("success", .b true), ("role", .s a.role)]⟩, false⟩
      | none =>
          ⟨s, ⟨200, .obj [("success", .b false), ("error", .s "Invalid credentials")]⟩,
            false⟩
  | .credentials =>
      let name : Option AuthRecord → String → String := fun rec d =>
        match rec with
        | some a => if a.username == "" then d else a.username
        | none => d
      ⟨s, ⟨200, .obj [
        ("adminUsername", .s (name (findRole s.auths "admin") "Admin")),
        ("userUsername", .s (name (findRole s.auths "user") "User")),
        ("assistantUsername", .s (name (findRole s.auths "assistant") "Assistant"))]⟩,
        false⟩
  | .authUpdate role username password =>
      let u : AuthRecord → AuthRecord := fun a =>
        match password with
        | some p => { a with username := username, password := p }
        | none => { a with username := username }
      ⟨{ s with auths := updateFirstAuth s.auths role u }, ⟨200, successBody⟩, true⟩
  | .resetAdmin confirmedUsername newPassword =>
      match s.auths.find? (fun a => a.role == "admin" && a.username == confirmedUsername) with
      | some a =>
          let u : AuthRecord → AuthRecord := fun b =>
            if b.username == a.username then { b with password := newPassword } else b
          ⟨{ s with auths := updateFirstAuth s.auths "admin" u },
            ⟨200, successBody⟩, true⟩
      | none => ⟨s, ⟨200, .obj [("success", .b false)]⟩, false⟩
  | .getEvents =>
      ⟨s, ⟨200, .eventsList (s.events.filter (fun e => e.isDeleted == false))⟩, false⟩
  | .getDeletedEvents =>
      ⟨s, ⟨200, .eventsList (s.events.filter (fun e => e.isDeleted == true))⟩, false⟩
  | .getEvent i => ⟨s, ⟨200, .eventOpt (findEvent s.events i)⟩, false⟩
  | .postEvent body =>
      ⟨{ s with events := s.events ++ [body] }, ⟨200, .eventRec body⟩, true⟩
  | .softDeleteEvent i =>
      ⟨{ s with events := updateFirstEvent s.events i (fun e => { e with isDeleted := true }) },
        ⟨200, successBody⟩, true⟩
  | .restoreEvent i =>
      ⟨{ s with events := updateFirstEvent s.events i (fun e => { e with isDeleted := false }) },
        ⟨200, successBody⟩, true⟩
  | .deleteEvent i =>
      ⟨{ s with events := removeFirstEvent s.events i }, ⟨200, successBody⟩, true⟩
  | .postTransaction i body =>
      match findEvent s.events i with
      | none => ⟨s, ⟨404, .obj [("error", .s "Event not found")]⟩, false⟩
      | some e =>
          let e' := { e with transactions := e.transactions ++ [body] }
          ⟨{ s with events := replaceFirstEvent s.events i e' }, ⟨200, .echo body⟩, true⟩
  | .putTransaction i txId body =>
      match findEvent s.events i with
      | none => ⟨s, ⟨404, .obj [("error", .s "Event not found")]⟩, false⟩
      | some e =>
          match e.transactions.findIdx? (fun t => t.lookup "id" == some (.s txId)) with
          | some idx =>
              let tNew := match e.transactions.get? idx with
                          | some t => mergeObj t body
                          | none => body
              let e' := { e with transactions := e.transactions.set idx tNew }
              ⟨{ s with events := replaceFirstEvent s.events i e' },
                ⟨200, successBody⟩, true⟩
          | none => ⟨s, ⟨200, successBody⟩, false⟩
  | .deleteTransaction i txId =>
      match findEvent s.events i with
      | none => ⟨s, ⟨404, .obj [("error", .s "Event not found")]⟩, false⟩
      | some e =>
          let e' := { e with transactions :=
            e.transactions.filter (fun t => !(t.lookup "id" == some (.s txId))) }
          ⟨{ s with events := replaceFirstEvent s.events i e' }, ⟨200, successBody⟩, true⟩
  | .getRequests => ⟨s, ⟨200, .requestsList s.reqs⟩, false⟩
  | .postRequest body =>
      ⟨{ s with reqs := s.reqs ++ [body] }, ⟨200, .requestRec body⟩, true⟩
  | .putRequest i body =>
      ⟨{ s with reqs := updateFirstRequest s.reqs i (fun r => applyRequestUpdate r body) },
        ⟨200, successBody⟩, true⟩
  | .deleteRequest i =>
      ⟨{ s with reqs := removeFirstRequest s.reqs i }, ⟨200, successBody⟩, true⟩
  | .markRead =>
      ⟨{ s with reqs := s.reqs.map (fun r => { r with isRead := true }) },
        ⟨200, successBody⟩, true⟩
  | .unknown => ⟨s, ⟨404, .obj [("error", .s "API Endpoint Not Found")]⟩, false⟩

/-- Result of the whole app handling one `/api/*` request: state, response,
whether a route handler executed, and whether a database write occurred. -/
structure AppResult where
  state : ServerState
  response : HttpResponse
  handlerRan : Bool
  saved : Bool
deriving Repr, DecidableEq

/-- The serverless app on one `/api/*` request:
`app.use('/api', checkDbConnection)` runs first (the gate applies to every
`/api` path, the health route included, since it is registered before the
routes); only if the gate calls `next()` does the matched route handler
run. -/
def handleApi (outcome : ConnectOutcome) (seedFail : Option Nat)
    (req : ApiReq) (s : ServerState) : AppResult :=
  let g := checkDbConnection outcome seedFail s
  match g.2 with
  | some resp => ⟨g.1, resp, false, false⟩
  | none =>
      let r := routeHandler req g.1
      ⟨r.state, r.response, true, r.saved⟩

/-- An event of a process lifetime of the serverless variant: an `/api`
request arriving (its `ensure()` call seeing the given connect outcome and
seeding-failure pattern), or the Mongoose driver asynchronously signalling
`disconnected` (readyState leaves 1) or `reconnected` (readyState back
to 1). -/
inductive Ev where
  | request (outcome : ConnectOutcome) (seedFail : Option Nat)
  | disconnected
  | reconnected
deriving Repr, DecidableEq

/-- One lifetime step: a request runs `connectDB` (through the gate); a
driver notification updates `mongoose.connection.readyState`.  Returns the
new state and how many times this step ran `seedAuth`. -/
def stepEv (e : Ev) (s : ServerState) : ServerState × Nat :=
  match e with
  | .request outcome seedFail =>
      let r := connectDB outcome seedFail s
      (r.state, r.seedRuns)
  | .disconnected => ({ s with readyState := 0 }, 0)
  | .reconnected => ({ s with readyState := 1 }, 0)

/-- Run a sequence of lifetime events, accumulating the number of seeding
runs. -/
def runEvents (evs : List Ev) (s : ServerState) : ServerState × Nat :=
  match evs with
  | [] => (s, 0)
  | e :: rest =>
      let p := stepEv e s
      let q := runEvents rest p.1
      (q.1, p.2 + q.2)

/-- Whether some event of the list is a request whose `ensure()` call
resolves (a successful `ensure()`). -/
def hasSuccessRequest (evs : List Ev) : Bool :=
  evs.any (fun e => match e with
    | .request .success _ => true
    | _ => false)

/-! ### Standalone variant (second revision in src/server/index.js) -/

/-- Process state of the standalone variant: the `isDbConnected` flag kept by
the `mongoose.connection.on` handlers, whether a `setTimeout(connectDB, 5000)`
retry is pending, and the `Auth` collection. -/
structure StandaloneState where
  isDbConnected : Bool
  retryScheduled : Bool
  auths : List AuthRecord
deriving Repr, DecidableEq

/-- Standalone process start state. -/
def standaloneInit : StandaloneState :=
  { isDbConnected := false, retryScheduled := false, auths := [] }

/-- The standalone `connectDB` (src/server/index.js lines 323-335): one
`mongoose.connect` attempt; on success set `isDbConnected` and run
`seedAuth`; on failure clear `isDbConnected` and schedule
`setTimeout(connectDB, 5000)`.  Returns the new state and the number of
connection attempts performed (always 1). -/
def standaloneConnectDB (outcome : ConnectOutcome) (s : StandaloneState) :
    StandaloneState × Nat :=
  match outcome with
  | .success =>
      ({ isDbConnected := true, retryScheduled := false, auths := seedAuth s.auths }, 1)
  | .failure _ =>
      ({ s with isDbConnected := false, retryScheduled := true }, 1)

/-- An event of the standalone process: the pending retry timer fires (which
calls `connectDB` again, with no request involved), or an `/api` request
arrives (its `checkDbConnection` only reads `isDbConnected`; it never calls
`connectDB`). -/
inductive StandaloneEv where
  | timerFires (outcome : ConnectOutcome)
  | request
deriving Repr, DecidableEq

/-- One standalone lifetime step, returning the new state and the number of
connection attempts performed in the step. -/
def standaloneStep (e : StandaloneEv) (s : StandaloneState) :
    StandaloneState × Nat :=
  match e with
  | .timerFires outcome =>
      if s.retryScheduled then
        standaloneConnectDB outcome { s with retryScheduled := false }
      else (s, 0)
  | .request => (s, 0)

/-! ### Theorems -/

/-- C1: a call to `connectDB` made while the connection state is already
ready (cached handle present and `readyState = 1`) resolves immediately as a
local state check — the state is unchanged and no `mongoose.connect` attempt
and no seeding run is performed, whatever the network environment or seeding
environment would have done. -/
theorem connectDB_warm_start_fast_path (outcome : ConnectOutcome)
    (seedFail : Option Nat) (s : ServerState)
    (h1 : s.cachedDb.isSome = true) (h2 : s.readyState = 1) :
    connectDB outcome seedFail s = ⟨s, .ok, 0, 0⟩ := by
  simp [connectDB, h1, h2]

/-- Witness for C1: on a concrete warm state, `connectDB` resolves with no
connect attempt even though the network would refuse a new connection. -/
theorem connectDB_warm_start_fast_path_witness :
    connectDB (.failure "ECONNREFUSED") none
        { initState with cachedDb := some (), readyState := 1 } =
      ⟨{ initState with cachedDb := some (), readyState := 1 }, .ok, 0, 0⟩ :=
  connectDB_warm_start_fast_path (.failure "ECONNREFUSED") none
    { initState with cachedDb := some (), readyState := 1 } (by decide) (by decide)

/-- C5: after a successful connection, an asynchronous `disconnected`
notification from the driver leaves `mongoose.connection.readyState` off 1,
so the next `connectDB` call takes the slow path and performs a reconnection
attempt instead of short-circuiting on stale ready state. -/
theorem ensure_after_disconnect_attempts_reconnect (s : ServerState)
    (seedFail seedFail' : Option Nat) (outcome : ConnectOutcome) :
    ((connectDB .success seedFail s).state.readyState = 1) ∧
    ((stepEv .disconnected (connectDB .success seedFail s).state).1.readyState ≠ 1) ∧
    ((connectDB outcome seedFail'
        (stepEv .disconnected (connectDB .success seedFail s).state).1).connectAttempts = 1) := by
  refine ⟨?_, by simp [stepEv], ?_⟩
  · by_cases h : s.cachedDb.isSome = true ∧ s.readyState = 1
    · simp [connectDB, h.1, h.2]
    · by_cases hs : s.isSeeded = true <;> simp [connectDB, h, hs]
  · have key : ∀ s2 : ServerState, s2.readyState = 0 →
        (connectDB outcome seedFail' s2).connectAttempts = 1 := by
      intro s2 hs2
      cases outcome <;> by_cases hs : s2.isSeeded = true <;> simp [connectDB, hs2, hs]
    exact key _ (by simp [stepEv])

/-- C6 counterexample: the error rejected by a failed `connectDB` is the
fixed message `Database connection failed.` whatever the underlying cause of
the `mongoose.connect` failure — two distinct causes produce identical
errors, so the error does not carry the underlying cause. -/
theorem connectDB_error_drops_cause :
    (connectDB (.failure "ETIMEDOUT cluster0.peqqawg.mongodb.net") none initState).result =
      (connectDB (.failure "bad auth : authentication failed") none initState).result ∧
    (connectDB (.failure "ETIMEDOUT cluster0.peqqawg.mongodb.net") none initState).result =
      .error "Database connection failed." ∧
    ("Database connection failed." : String) ≠ "ETIMEDOUT cluster0.peqqawg.mongodb.net" :=
  ⟨rfl, rfl, by decide⟩

/-- C6 amended: when a connection attempt inside `connectDB` fails, the
cached handle is cleared, the state is left not-ready, and `connectDB`
rejects with an error carrying the fixed message
`Database connection failed.` (the underlying cause is logged only, not
carried by the error). -/
theorem connectDB_failure_clears_state (cause : String) (seedFail : Option Nat)
    (s : ServerState) (h : ¬(s.cachedDb.isSome = true ∧ s.readyState = 1)) :
    (connectDB (.failure cause) seedFail s).state.cachedDb = none ∧
    (connectDB (.failure cause) seedFail s).state.readyState ≠ 1 ∧
    (connectDB (.failure cause) seedFail s).result =
      .error "Database connection failed." := by
  have hc : (s.cachedDb.isSome && s.readyState == 1) = false := by
    by_cases h1 : s.cachedDb.isSome = true
    · by_cases h2 : s.readyState = 1
      · exact absurd ⟨h1, h2⟩ h
      · simp [h1, h2]
    · simp [Bool.not_eq_true] at h1
      simp [h1]
  simp [connectDB, hc]

/-- Witness for C6's amended theorem at the process start state. -/
theorem connectDB_failure_clears_state_witness :
    (connectDB (.failure "ECONNREFUSED") none initState).state.cachedDb = none ∧
    (connectDB (.failure "ECONNREFUSED") none initState).state.readyState ≠ 1 ∧
    (connectDB (.failure "ECONNREFUSED") none initState).result =
      .error "Database connection failed." :=
  connectDB_failure_clears_state "ECONNREFUSED" none initState (by decide)

/-- C8 amended, part for the serverless variant: a single call to the
serverless `connectDB` performs at most one `mongoose.connect` attempt and
never retries internally. -/
theorem connectDB_at_most_one_attempt (outcome : ConnectOutcome)
    (seedFail : Option Nat) (s : ServerState) :
    (connectDB outcome seedFail s).connectAttempts ≤ 1 := by
  by_cases h : s.cachedDb.isSome && s.readyState == 1
  · simp [connectDB, h]
  · cases outcome <;> by_cases hs : s.isSeeded = true <;> simp [connectDB, h, hs]

/-- C8 counterexample: in the standalone variant, a single failed `connectDB`
call performs one attempt and schedules `setTimeout(connectDB, 5000)`; when
that timer fires — with no intervening request — a second connection attempt
is performed.  So a retry happens that is not caused by a subsequent request
calling `ensure()` again. -/
theorem standaloneConnectDB_retries_without_request :
    (standaloneConnectDB (.failure "ECONNREFUSED") standaloneInit).2 = 1 ∧
    (standaloneConnectDB (.failure "ECONNREFUSED") standaloneInit).1.retryScheduled = true ∧
    (standaloneStep (.timerFires (.failure "ECONNREFUSED"))
        (standaloneConnectDB (.failure "ECONNREFUSED") standaloneInit).1).2 = 1 :=
  ⟨rfl, rfl, rfl⟩

/-! ### Seeding lemmas -/

/-- A seeding step leaves the store unchanged when the role is present, and
appends the new record when it is absent. -/
theorem seedRoleStep_eq (auths : List AuthRecord) (r u p : String) :
    seedRoleStep auths r u p =
      auths ++ (if (findRole auths r).isSome then [] else [⟨r, u, p⟩]) := by
  unfold seedRoleStep
  split <;> simp [*]

/-- A seeding step for a present role is the identity. -/
theorem seedRoleStep_of_isSome (auths : List AuthRecord) (r u p : String)
    (h : (findRole auths r).isSome = true) : seedRoleStep auths r u p = auths := by
  unfold seedRoleStep
  simp [h]

/-- Appending records none of which has role `r'` does not change
`findRole` for `r'`. -/
theorem findRole_append_none (auths l : List AuthRecord) (r' : String)
    (h : findRole l r' = none) : findRole (auths ++ l) r' = findRole auths r' := by
  unfold findRole at *
  rw [List.find?_append, h, Option.or_none]

/-- A seeding step for role `r` does not change `findRole` for a different
role `r'`. -/
theorem findRole_seedRoleStep_ne (auths : List AuthRecord) (r u p r' : String)
    (h : ¬ r = r') :
    findRole (seedRoleStep auths r u p) r' = findRole auths r' := by
  rw [seedRoleStep_eq]
  split
  · simp
  · exact findRole_append_none _ _ _ (by simp [findRole, h])

/-- After a seeding step for role `r`, a record with role `r` exists. -/
theorem findRole_seedRoleStep_self (auths : List AuthRecord) (r u p : String) :
    (findRole (seedRoleStep auths r u p) r).isSome = true := by
  rw [seedRoleStep_eq]
  split
  · simpa using ‹(findRole auths r).isSome = true›
  · unfold findRole at *
    rw [List.find?_append]
    cases hf : auths.find? (fun a => a.role == r) with
    | some a => simp [Option.or]
    | none => simp [Option.or, List.find?]

/-- `seedAuth` is the three seeding steps for `admin`, `user`, `assistant`
in order (no database operation throws). -/
theorem seedAuth_unfold (auths : List AuthRecord) :
    seedAuth auths =
      seedRoleStep (seedRoleStep (seedRoleStep auths "admin" "Raiha Iman" "admin")
        "user" "user" "password") "assistant" "assi" "assi" := by
  unfold seedAuth seedAuthRun
  simp

/-- After `seedAuth`, a record with role `admin` exists. -/
theorem findRole_seedAuth_admin (auths : List AuthRecord) :
    (findRole (seedAuth auths) "admin").isSome = true := by
  rw [seedAuth_unfold,
    findRole_seedRoleStep_ne _ _ _ _ _ (by decide : ¬ ("assistant" : String) = "admin"),
    findRole_seedRoleStep_ne _ _ _ _ _ (by decide : ¬ ("user" : String) = "admin")]
  exact findRole_seedRoleStep_self auths "admin" "Raiha Iman" "admin"

/-- After `seedAuth`, a record with role `user` exists. -/
theorem findRole_seedAuth_user (auths : List AuthRecord) :
    (findRole (seedAuth auths) "user").isSome = true := by
  rw [seedAuth_unfold,
    findRole_seedRoleStep_ne _ _ _ _ _ (by decide : ¬ ("assistant" : String) = "user")]
  exact findRole_seedRoleStep_self _ "user" "user" "password"

/-- After `seedAuth`, a record with role `assistant` exists. -/
theorem findRole_seedAuth_assistant (auths : List AuthRecord) :
    (findRole (seedAuth auths) "assistant").isSome = true := by
  rw [seedAuth_unfold]
  exact findRole_seedRoleStep_self _ "assistant" "assi" "assi"

/-- Appending either nothing or a single record of a different role does not
change `findRole`. -/
theorem findRole_append_ite (auths : List AuthRecord) (c : Prop) [Decidable c]
    (a : AuthRecord) (r' : String) (h : ¬ a.role = r') :
    findRole (auths ++ (if c then [] else [a])) r' = findRole auths r' := by
  split
  · simp
  · exact findRole_append_none _ _ _ (by simp [findRole, h])

/-- Characterization of `seedAuth`: the original store is kept unchanged (as
a prefix) and exactly the default record of each absent role is appended. -/
theorem seedAuth_eq (auths : List AuthRecord) :
    seedAuth auths =
      ((auths ++ (if (findRole auths "admin").isSome then [] else [adminDefault]))
        ++ (if (findRole auths "user").isSome then [] else [userDefault]))
        ++ (if (findRole auths "assistant").isSome then [] else [assistantDefault]) := by
  rw [seedAuth_unfold]
  rw [seedRoleStep_eq auths "admin" "Raiha Iman" "admin"]
  rw [seedRoleStep_eq (auths ++ _) "user" "user" "password"]
  rw [findRole_append_ite auths _ ⟨"admin", "Raiha Iman", "admin"⟩ "user" (by decide)]
  rw [seedRoleStep_eq ((auths ++ _) ++ _) "assistant" "assi" "assi"]
  rw [findRole_append_ite (auths ++ _) _ ⟨"user", "user", "password"⟩ "assistant" (by decide)]
  rw [findRole_append_ite auths _ ⟨"admin", "Raiha Iman", "admin"⟩ "assistant" (by decide)]
  rfl

/-- C4: `seedAuth` is idempotent create-if-absent over the roles `admin`,
`user`, `assistant`: for any starting store it appends the fixed default
record exactly for each role with no existing record, leaves every existing
record untouched (the original store is an unchanged prefix), and a second
run changes nothing. -/
theorem seedAuth_idempotent_create_if_absent (auths : List AuthRecord) :
    (seedAuth auths =
      ((auths ++ (if (findRole auths "admin").isSome then [] else [adminDefault]))
        ++ (if (findRole auths "user").isSome then [] else [userDefault]))
        ++ (if (findRole auths "assistant").isSome then [] else [assistantDefault])) ∧
    seedAuth (seedAuth auths) = seedAuth auths := by
  refine ⟨seedAuth_eq auths, ?_⟩
  rw [seedAuth_unfold (seedAuth auths),
    seedRoleStep_of_isSome _ _ _ _ (findRole_seedAuth_admin auths),
    seedRoleStep_of_isSome _ _ _ _ (findRole_seedAuth_user auths),
    seedRoleStep_of_isSome _ _ _ _ (findRole_seedAuth_assistant auths)]

/-! ### Lifetime lemmas for the seeding flag -/

/-- A lifetime step never resets `isSeeded`. -/
theorem stepEv_isSeeded_mono (e : Ev) (s : ServerState) (h : s.isSeeded = true) :
    (stepEv e s).1.isSeeded = true := by
  cases e with
  | request outcome seedFail =>
      cases outcome <;>
        by_cases hc : s.cachedDb.isSome = true ∧ s.readyState = 1 <;>
          simp [stepEv, connectDB, hc, h]
  | disconnected => simpa [stepEv] using h
  | reconnected => simpa [stepEv] using h

/-- A lifetime step from a seeded state never runs `seedAuth`. -/
theorem stepEv_seeds_zero_of_seeded (e : Ev) (s : ServerState)
    (h : s.isSeeded = true) : (stepEv e s).2 = 0 := by
  cases e with
  | request outcome seedFail =>
      cases outcome <;>
        by_cases hc : s.cachedDb.isSome = true ∧ s.readyState = 1 <;>
          simp [stepEv, connectDB, hc, h]
  | disconnected => simp [stepEv]
  | reconnected => simp [stepEv]

/-- From a seeded state, a whole event sequence runs `seedAuth` zero times
and stays seeded. -/
theorem runEvents_of_seeded (evs : List Ev) (s : ServerState)
    (h : s.isSeeded = true) :
    (runEvents evs s).2 = 0 ∧ (runEvents evs s).1.isSeeded = true := by
  induction evs generalizing s with
  | nil => simpa [runEvents] using h
  | cons e rest ih =>
      have h1 := stepEv_isSeeded_mono e s h
      have h2 := stepEv_seeds_zero_of_seeded e s h
      have h3 := ih (stepEv e s).1 h1
      simp [runEvents, h2, h3.1, h3.2]

/-- From an unseeded state with no cached handle, the number of `seedAuth`
runs over an event sequence is 1 if some request's `ensure()` resolves and 0
otherwise. -/
theorem runEvents_seeds_count (evs : List Ev) (s : ServerState)
    (hseed : s.isSeeded = false) (hcache : s.cachedDb = none) :
    (runEvents evs s).2 = if hasSuccessRequest evs then 1 else 0 := by
  induction evs generalizing s with
  | nil => simp [runEvents, hasSuccessRequest]
  | cons e rest ih =>
      cases e with
      | request outcome seedFail =>
          cases outcome with
          | success =>
              have hstep2 : (stepEv (.request .success seedFail) s).2 = 1 := by
                simp [stepEv, connectDB, hseed, hcache]
              have hstep1 : (stepEv (.request .success seedFail) s).1.isSeeded = true := by
                simp [stepEv, connectDB, hseed, hcache]
              have hrest := (runEvents_of_seeded rest _ hstep1).1
              simp [runEvents, hstep2, hrest, hasSuccessRequest]
          | failure cause =>
              have hstep2 : (stepEv (.request (.failure cause) seedFail) s).2 = 0 := by
                simp [stepEv, connectDB, hcache]
              have h1 : (stepEv (.request (.failure cause) seedFail) s).1.isSeeded = false := by
                simp [stepEv, connectDB, hcache, hseed]
              have h2 : (stepEv (.request (.failure cause) seedFail) s).1.cachedDb = none := by
                simp [stepEv, connectDB, hcache]
              have h3 := ih _ h1 h2
              simp [runEvents, hstep2, h3, hasSuccessRequest]
      | disconnected =>
          have h3 := ih { s with readyState := 0 } (by simpa) (by simpa)
          simp [runEvents, stepEv, h3, hasSuccessRequest]
      | reconnected =>
          have h3 := ih { s with readyState := 1 } (by simpa) (by simpa)
          simp [runEvents, stepEv, h3, hasSuccessRequest]

/-- From an unseeded, uncached state, an event sequence containing no
resolving request leaves the state unseeded and uncached. -/
theorem runEvents_no_success (evs : List Ev) (s : ServerState)
    (hseed : s.isSeeded = false) (hcache : s.cachedDb = none)
    (h : hasSuccessRequest evs = false) :
    (runEvents evs s).1.isSeeded = false ∧ (runEvents evs s).1.cachedDb = none := by
  induction evs generalizing s with
  | nil => simpa [runEvents] using ⟨hseed, hcache⟩
  | cons e rest ih =>
      cases e with
      | request outcome seedFail =>
          cases outcome with
          | success => simp [hasSuccessRequest] at h
          | failure cause =>
              have h1 : (stepEv (.request (.failure cause) seedFail) s).1.isSeeded = false := by
                simp [stepEv, connectDB, hcache, hseed]
              have h2 : (stepEv (.request (.failure cause) seedFail) s).1.cachedDb = none := by
                simp [stepEv, connectDB, hcache]
              have hr : hasSuccessRequest rest = false := by
                simpa [hasSuccessRequest] using h
              simpa [runEvents] using ih _ h1 h2 hr
      | disconnected =>
          have hr : hasSuccessRequest rest = false := by
            simpa [hasSuccessRequest] using h
          simpa [runEvents, stepEv] using
            ih { s with readyState := 0 } (by simpa) (by simpa) hr
      | reconnected =>
          have hr : hasSuccessRequest rest = false := by
            simpa [hasSuccessRequest] using h
          simpa [runEvents, stepEv] using
            ih { s with readyState := 1 } (by simpa) (by simpa) hr

/-- C3: over any sequence of lifetime events from process start, `seedAuth`
is triggered exactly once when some request's `ensure()` resolves (and never
otherwise); `isSeeded` never reverts once set; and the first resolving
`ensure()` is the one that triggers seeding — after any success-free event
sequence, a resolving request runs `seedAuth` exactly once, even if failures
or disconnections occurred before. -/
theorem connectDB_seeds_once_per_lifetime :
    (∀ evs : List Ev,
      (runEvents evs initState).2 = if hasSuccessRequest evs then 1 else 0) ∧
    (∀ (e : Ev) (s : ServerState), s.isSeeded = true → (stepEv e s).1.isSeeded = true) ∧
    (∀ (evs : List Ev) (seedFail : Option Nat), hasSuccessRequest evs = false →
      (stepEv (.request .success seedFail) (runEvents evs initState).1).2 = 1) := by
  refine ⟨fun evs => runEvents_seeds_count evs initState rfl rfl,
    stepEv_isSeeded_mono, ?_⟩
  intro evs sf h
  obtain ⟨h1, h2⟩ := runEvents_no_success evs initState rfl rfl h
  simp [stepEv, connectDB, h1, h2]

/-- Witness for C3: after a failed request, a disconnect notification and a
reconnect notification — no resolving request — the next resolving request
triggers exactly one seeding run. -/
theorem connectDB_seeds_once_per_lifetime_witness :
    (stepEv (.request .success none)
      (runEvents [Ev.request (.failure "ECONNREFUSED") none, Ev.disconnected,
        Ev.reconnected] initState).1).2 = 1 :=
  connectDB_seeds_once_per_lifetime.2.2
    [Ev.request (.failure "ECONNREFUSED") none, Ev.disconnected, Ev.reconnected]
    none (by decide)

/-! ### Gate and route theorems -/

/-- A `connectDB` call whose connect attempt (if any) resolves always
resolves, and leaves a live cached connection. -/
theorem connectDB_success_state (seedFail : Option Nat) (s : ServerState) :
    (connectDB .success seedFail s).result = .ok ∧
    (connectDB .success seedFail s).state.readyState = 1 ∧
    (connectDB .success seedFail s).state.cachedDb.isSome = true := by
  by_cases h : s.cachedDb.isSome = true ∧ s.readyState = 1
  · simp [connectDB, h.1, h.2]
  · by_cases hs : s.isSeeded = true <;> simp [connectDB, h, hs]

/-- C2: while the store is unreachable (so `connectDB` rejects), every
`/api/*` request is short-circuited by `checkDbConnection`: the response is
exactly the JSON object whose single field `error` holds the error message,
with status 503; no route handler runs, no database write happens, and all
three collections are untouched. -/
theorem gate_short_circuits_503 (req : ApiReq) (s : ServerState)
    (seedFail : Option Nat) (cause : String)
    (h : ¬(s.cachedDb.isSome = true ∧ s.readyState = 1)) :
    (handleApi (.failure cause) seedFail req s).response =
      ⟨503, .obj [("error", .s "Database connection failed.")]⟩ ∧
    (handleApi (.failure cause) seedFail req s).handlerRan = false ∧
    (handleApi (.failure cause) seedFail req s).saved = false ∧
    (handleApi (.failure cause) seedFail req s).state.auths = s.auths ∧
    (handleApi (.failure cause) seedFail req s).state.events = s.events ∧
    (handleApi (.failure cause) seedFail req s).state.reqs = s.reqs := by
  simp [handleApi, checkDbConnection, connectDB, h]

/-- Witness for C2 on the cold-start state and a write-bearing route. -/
theorem gate_short_circuits_503_witness :
    (handleApi (.failure "ECONNREFUSED") none .markRead initState).response =
      ⟨503, .obj [("error", .s "Database connection failed.")]⟩ ∧
    (handleApi (.failure "ECONNREFUSED") none .markRead initState).handlerRan = false ∧
    (handleApi (.failure "ECONNREFUSED") none .markRead initState).saved = false ∧
    (handleApi (.failure "ECONNREFUSED") none .markRead initState).state.auths = initState.auths ∧
    (handleApi (.failure "ECONNREFUSED") none .markRead initState).state.events = initState.events ∧
    (handleApi (.failure "ECONNREFUSED") none .markRead initState).state.reqs = initState.reqs :=
  gate_short_circuits_503 .markRead initState none "ECONNREFUSED" (by decide)

/-- C7 counterexample: with the store unreachable at cold start, a GET to
the health path `/api/health` does not succeed — the gate registered at the
`/api` prefix runs before the health route and
replies 503, so the health path is not reachable independent of database
connection status. -/
theorem health_gated_when_store_down :
    (handleApi (.failure "ECONNREFUSED") none .health initState).response =
      ⟨503, .obj [("error", .s "Database connection failed.")]⟩ ∧
    (handleApi (.failure "ECONNREFUSED") none .health initState).handlerRan = false :=
  ⟨rfl, rfl⟩

/-- C7 amended: a health-check GET succeeds whenever `connectDB` resolves —
in particular with the store reachable and seeding not yet done, seeding
completion playing no role — but the health path is behind the same gate as
every `/api` path: when `connectDB` rejects, the health request receives the
503 gate response and the health handler does not run. -/
theorem health_check_follows_gate (s : ServerState) (seedFail : Option Nat)
    (cause : String) (_h : s.isSeeded = false) :
    ((handleApi .success seedFail .health s).response.status = 200 ∧
      (handleApi .success seedFail .health s).response.body =
        .obj [("status", .s "ok"), ("db", .s "connected")] ∧
      (handleApi .success seedFail .health s).handlerRan = true) ∧
    (¬(s.cachedDb.isSome = true ∧ s.readyState = 1) →
      (handleApi (.failure cause) seedFail .health s).response.status = 503 ∧
      (handleApi (.failure cause) seedFail .health s).handlerRan = false) := by
  obtain ⟨hok, hready, hcached⟩ := connectDB_success_state seedFail s
  constructor
  · simp [handleApi, checkDbConnection, hok, routeHandler, hready]
  · intro h2
    simp [handleApi, checkDbConnection, connectDB, h2]

/-- Witness for C7's amended theorem at the cold-start state. -/
theorem health_check_follows_gate_witness :
    ((handleApi .success none .health initState).response.status = 200 ∧
      (handleApi .success none .health initState).response.body =
        .obj [("status", .s "ok"), ("db", .s "connected")] ∧
      (handleApi .success none .health initState).handlerRan = true) ∧
    ((handleApi (.failure "ECONNREFUSED") none .health initState).response.status = 503 ∧
      (handleApi (.failure "ECONNREFUSED") none .health initState).handlerRan = false) :=
  ⟨(health_check_follows_gate initState none "ECONNREFUSED" (by decide)).1,
    (health_check_follows_gate initState none "ECONNREFUSED" (by decide)).2 (by decide)⟩

/-- C9: a request that triggers seeding (unseeded state, no warm fast path,
connect resolves) succeeds based only on connection status: whatever seeding
operation fails (`seedFail` arbitrary, the failure being caught inside
`seedAuth`), `connectDB` still resolves, the connection is live and cached,
`isSeeded` is set, seeding ran exactly once, and the route handler runs. -/
theorem seeding_failure_swallowed (s : ServerState) (seedFail : Option Nat)
    (req : ApiReq) (h1 : s.isSeeded = false)
    (h2 : ¬(s.cachedDb.isSome = true ∧ s.readyState = 1)) :
    (connectDB .success seedFail s).seedRuns = 1 ∧
    (connectDB .success seedFail s).result = .ok ∧
    (connectDB .success seedFail s).state.readyState = 1 ∧
    (connectDB .success seedFail s).state.cachedDb.isSome = true ∧
    (connectDB .success seedFail s).state.isSeeded = true ∧
    (handleApi .success seedFail req s).handlerRan = true := by
  refine ⟨?_, ?_, ?_, ?_, ?_, ?_⟩ <;>
    simp [handleApi, checkDbConnection, connectDB, h1, h2]

/-- Witness for C9: at cold start, with the admin seeding operation
throwing, the gate still lets a GET to `/api/events` reach its handler. -/
theorem seeding_failure_swallowed_witness :
    (connectDB .success (some 0) initState).seedRuns = 1 ∧
    (connectDB .success (some 0) initState).result = .ok ∧
    (connectDB .success (some 0) initState).state.readyState = 1 ∧
    (connectDB .success (some 0) initState).state.cachedDb.isSome = true ∧
    (connectDB .success (some 0) initState).state.isSeeded = true ∧
    (handleApi .success (some 0) .getEvents initState).handlerRan = true :=
  seeding_failure_swallowed initState (some 0) .getEvents (by decide) (by decide)

/-- C10: a PUT to `/api/events/:id/transactions/:txId` whose event exists
but whose transaction list has no entry with `id` equal to `txId` replies
with the JSON object with field `success` set to `true` (status 200), leaves
the whole state — the event's transaction list included — unchanged, and
performs no save. -/
theorem putTransaction_no_match_frame (s : ServerState) (i txId : String)
    (body : Obj) (e : EventRec)
    (h1 : findEvent s.events i = some e)
    (h2 : e.transactions.findIdx? (fun t => t.lookup "id" == some (.s txId)) = none) :
    routeHandler (.putTransaction i txId body) s = ⟨s, ⟨200, successBody⟩, false⟩ := by
  simp [routeHandler, h1, h2]

/-- Witness for C10 on a concrete event whose only transaction has another
id. -/
theorem putTransaction_no_match_frame_witness :
    routeHandler (.putTransaction "e1" "t9" [("amount", .n 7)])
        { initState with events := [⟨"e1", false, [[("id", .s "t1"), ("amount", .n 5)]]⟩] } =
      ⟨{ initState with events := [⟨"e1", false, [[("id", .s "t1"), ("amount", .n 5)]]⟩] },
        ⟨200, successBody⟩, false⟩ :=
  putTransaction_no_match_frame
    { initState with events := [⟨"e1", false, [[("id", .s "t1"), ("amount", .n 5)]]⟩] }
    "e1" "t9" [("amount", .n 7)] ⟨"e1", false, [[("id", .s "t1"), ("amount", .n 5)]]⟩
    (by decide) (by decide)

end HMSFinance
